import Mathlib

/-
Shallow embedding of the flight-assistant request pipeline (src/app.py).

Modelling conventions:
- JSON scalar values are `JVal`; a JSON object decoded from the model reply is
  a `Jobj` whose fields are `Option JVal` (`none` = key absent, `some .null` =
  key present with JSON null).  Only the nine keys the pipeline reads are kept.
- Python `dict.get(k)` returns None both for an absent key and for a null
  value; `pget` collapses accordingly.  `dict.get(k, d)` returns the default
  only when the key is absent (`pgetD`).
- Calendar dates are represented at day granularity as `Nat` day counts.  The
  code only ever adds whole-day deltas and renders with strftime of the date
  part, and re-parses its own rendering with strptime of the same format, so
  the YYYY-MM-DD string is an injective rendering of the day count and the
  strftime/strptime round trip is the identity at this granularity.
- The two external date libraries (parsedatetime's Calendar.parse with a
  nonzero status, and dateutil's fuzzy parser, which may raise) are external
  collaborators; they are passed in as functions `String → Nat → Option Nat`
  (phrase, reference day ↦ parsed day, `none` = no parse / exception).
- The language model (`ollama.chat`) is an external completer, passed in as
  `chat : String → String` from prompt to reply text, and `json.loads` is
  passed in as `jsonLoads : String → Option Jobj` (`none` = decode error).
- Python statements that can raise inside the route's try/except are modelled
  with `Except String`; any raise surfaces as the generic 500 response.
-/

/-- Scalar JSON value as decoded by json.loads (composite values are not
needed by any of the nine keys the pipeline reads in practice). -/
inductive JVal where
  | null : JVal
  | bool : Bool → JVal
  | num : Int → JVal
  | str : String → JVal
deriving DecidableEq

/-- Python truthiness of a JSON scalar. -/
def truthy : JVal → Bool
  | JVal.null => false
  | JVal.bool b => b
  | JVal.num n => n != 0
  | JVal.str s => s != ""

/-- Python truthiness of a value that may be Python None. -/
def truthyO : Option JVal → Bool
  | none => false
  | some v => truthy v

/-- Python str() of a JSON scalar (or of None via the Option wrapper below). -/
def pyStr : JVal → String
  | JVal.null => "None"
  | JVal.bool true => "True"
  | JVal.bool false => "False"
  | JVal.num n => toString n
  | JVal.str s => s

/-- Python str.lower() on one character (ASCII range, the only range the
pipeline's fixed phrases use). -/
def lowerChar (c : Char) : Char :=
  if 65 ≤ c.toNat && c.toNat ≤ 90 then Char.ofNat (c.toNat + 32) else c

/-- Python str.lower() on a string. -/
def pyLowerStr (s : String) : String := String.mk (s.toList.map lowerChar)

/-- Python str.strip() on a character list: whitespace removed at both ends. -/
def pyStripL (l : List Char) : List Char :=
  ((l.dropWhile Char.isWhitespace).reverse.dropWhile Char.isWhitespace).reverse

/-- Python str.strip() on a string. -/
def pyStrip (s : String) : String := String.mk (pyStripL s.toList)

/-- Python int(str) digit run: digits with single underscores allowed between
digits, ASCII only; `acc` holds the value of the digits already read. -/
def digitsCore : List Char → Nat → Option Nat
  | [], acc => some acc
  | '_' :: d :: rest, acc =>
      if d.isDigit then digitsCore rest (acc * 10 + (d.toNat - 48)) else none
  | ['_'], _ => none
  | c :: rest, acc =>
      if c.isDigit then digitsCore rest (acc * 10 + (c.toNat - 48)) else none

/-- Nonempty digit run (first character must be a digit). -/
def pyIntDigits : List Char → Option Nat
  | [] => none
  | c :: rest => if c.isDigit then digitsCore rest (c.toNat - 48) else none

/-- Python int() applied to a JSON scalar: identity on integers, 0/1 on
booleans, base-10 parse of a trimmed string with optional sign, and a raise
(`none`) on null and on non-numeric strings. -/
def pyInt (v : JVal) : Option Int :=
  match v with
  | JVal.num n => some n
  | JVal.bool b => some (if b then 1 else 0)
  | JVal.str s =>
      match (pyStrip s).toList with
      | '+' :: rest => (pyIntDigits rest).map (fun n => (n : Int))
      | '-' :: rest => (pyIntDigits rest).map (fun n => -(n : Int))
      | rest => (pyIntDigits rest).map (fun n => (n : Int))
  | JVal.null => none

/-- Python .lower() on a value: succeeds only on strings, raises
(AttributeError, modelled as `none`) otherwise. -/
def pyLower : JVal → Option String
  | JVal.str s => some (pyLowerStr s)
  | _ => none

/-- Python dict.get(k): None for an absent key and for a stored null. -/
def pget : Option JVal → Option JVal
  | some JVal.null => none
  | x => x

/-- Python dict.get(k, d): the default only when the key is absent; a stored
null is returned as-is. -/
def pgetD (v : Option JVal) (d : JVal) : JVal := v.getD d

/-- Substring test on character lists, Python `needle in hay` semantics. -/
def containsSubL (needle : List Char) : List Char → Bool
  | [] => needle.isEmpty
  | c :: t => needle.isPrefixOf (c :: t) || containsSubL needle t

/-- Python `needle in hay` on strings. -/
def containsSub (hay needle : String) : Bool :=
  containsSubL needle.toList hay.toList

/-- Value of an ASCII digit run. -/
def digitsToNat (ds : List Char) : Nat :=
  ds.foldl (fun a c => a * 10 + (c.toNat - 48)) 0

/-- Match of the regex `after (\d+) days?` anchored at the head of the list:
the literal "after ", then a maximal nonempty digit run, then " day".  The
optional "s" never affects whether the regex matches, so it is not tested. -/
def afterDaysAt (l : List Char) : Option Nat :=
  match l with
  | 'a' :: 'f' :: 't' :: 'e' :: 'r' :: ' ' :: rest =>
      let ds := rest.takeWhile (fun c => c.isDigit)
      if ds.isEmpty then none
      else if ([' ', 'd', 'a', 'y'].isPrefixOf (rest.drop ds.length)) then
        some (digitsToNat ds)
      else none
  | _ => none

/-- re.search of `after (\d+) days?`: leftmost match wins. -/
def afterDaysSearch : List Char → Option Nat
  | [] => none
  | c :: t =>
      match afterDaysAt (c :: t) with
      | some n => some n
      | none => afterDaysSearch t

/-- The date normalizer of src/app.py.  `today` is the reference day
(`base_date or datetime.now()`); `calParse` models parsedatetime's calendar
(`none` = parse_status 0) and `fuzzyParse` models dateutil's fuzzy parser
(`none` = exception).  Returns the resolved day count or `none`. -/
def parse_date_string (naturalDate : String) (today : Nat)
    (calParse fuzzyParse : String → Nat → Option Nat) : Option Nat :=
  if naturalDate = "" then none
  else
    let lower := pyStrip (pyLowerStr naturalDate)
    if containsSub lower ("day after tomorrow") then some (today + 2)
    else if containsSub lower ("tomorrow") then some (today + 1)
    else
      match afterDaysSearch lower.toList with
      | some days => some (today + days)
      | none =>
          match calParse naturalDate today with
          | some d => some d
          | none => fuzzyParse naturalDate today

/-- parse_date_string as invoked by the route on a raw JSON value: falsy
values hit the `if not natural_date` guard and yield None; truthy non-string
values raise AttributeError at `.lower()` (modelled as `.error`). -/
def parseDatePy (v : Option JVal) (base : Nat)
    (calParse fuzzyParse : String → Nat → Option Nat) : Except String (Option Nat) :=
  match v with
  | none => Except.ok none
  | some JVal.null => Except.ok none
  | some (JVal.bool false) => Except.ok none
  | some (JVal.bool true) => Except.error "AttributeError"
  | some (JVal.num n) =>
      if n == 0 then Except.ok none else Except.error "AttributeError"
  | some (JVal.str s) => Except.ok (parse_date_string s base calParse fuzzyParse)

/-- The missing-value sentinels tested by is_missing. -/
def missingSentinels : List String :=
  ["", "none", "not provided", "departure city (not provided)",
   "arrival city (not provided)"]

/-- is_missing of src/app.py, on a value that may be Python None. -/
def is_missing : Option JVal → Bool
  | none => true
  | some v => missingSentinels.contains (pyLowerStr (pyStrip (pyStr v)))

/-- The decoded model reply, restricted to the nine keys the route reads.
`none` = key absent from the JSON object. -/
structure Jobj where
  jfrom : Option JVal := none
  jto : Option JVal := none
  depdate : Option JVal := none
  retdate : Option JVal := none
  adults : Option JVal := none
  children : Option JVal := none
  infants : Option JVal := none
  cabin : Option JVal := none
  airline_include : Option JVal := none
deriving DecidableEq

/-- build_prompt of src/app.py: the fixed extraction instructions with the
query spliced in verbatim. -/
def build_prompt (query : String) : String :=
  "\nYou are a flight booking assistant.\n\nExtract and return only JSON with the following keys:\n- from: departure city\n- to: arrival city\n- depdate: departure date (natural format like \"after 5 days\" allowed)\n- retdate: return date (optional)\n- adults: number of adults (default: 1)\n- children: number of children (default: 0)\n- infants: number of infants (default: 0)\n- cabin: cabin class like economy, business (default: economy)\n- airline_include: preferred airline if mentioned (e.g., \"by Indigo\")\n\n⚠️ Only assign a value if it is clearly mentioned in the query. \nIf a field is missing, set its value to null or \"Not Provided\",except:\n- Set \"adults\" to 1 by default\n- Set \"children\" and \"infants\" to 0 by default\n- Set \"cabin\" to \"economy\" by default\n\nReturn valid JSON only. Do not explain anything.\n\nQuery: \"" ++ query ++ "\"\n"

/-- Opening brace character. -/
def lbraceChar : Char := Char.ofNat 123

/-- Closing brace character. -/
def rbraceChar : Char := Char.ofNat 125

/-- re.search(r"\x7b.*\x7d", content, re.DOTALL) on the reply text: the span
from the first opening brace to the last closing brace, provided the latter
comes after the former; greedy, spanning newlines. -/
def extractJson (content : String) : Option String :=
  let l := content.toList
  match l.findIdx? (fun c => c == lbraceChar),
        l.reverse.findIdx? (fun c => c == rbraceChar) with
  | some i, some jr =>
      let j := l.length - 1 - jr
      if i < j then some (String.mk ((l.drop i).take (j + 1 - i))) else none
  | _, _ => none

/-- Raw departure-date value as read by the route. -/
def depdateRawOf (parsed : Jobj) : Option JVal := pget parsed.depdate

/-- Raw return-date value as read by the route. -/
def retdateRawOf (parsed : Jobj) : Option JVal := pget parsed.retdate

/-- Departure city after the cross-check: a truthy extracted value is
discarded when the literal substring "from" does not occur in the lowercased
query. -/
def depfromOf (q : String) (parsed : Jobj) : Option JVal :=
  let depfrom := pget parsed.jfrom
  if truthyO depfrom && !(containsSub (pyLowerStr q) ("from")) then none else depfrom

/-- Arrival city after the cross-check, symmetric with "to". -/
def arrtoOf (q : String) (parsed : Jobj) : Option JVal :=
  let arrto := pget parsed.jto
  if truthyO arrto && !(containsSub (pyLowerStr q) ("to")) then none else arrto

/-- Departure-date normalization step of the route:
`parse_date_string(depdate_raw) if depdate_raw else None`, reference = now. -/
def depdateOf (parsed : Jobj) (calParse fuzzyParse : String → Nat → Option Nat)
    (now : Nat) : Except String (Option Nat) :=
  if truthyO (depdateRawOf parsed) then
    parseDatePy (depdateRawOf parsed) now calParse fuzzyParse
  else Except.ok none

/-- Return-date normalization step of the route: computed only when both a
truthy raw return phrase and a resolved departure date exist, with the
resolved departure date as the reference. -/
def retdateOf (parsed : Jobj) (calParse fuzzyParse : String → Nat → Option Nat)
    (now : Nat) : Except String (Option Nat) :=
  match depdateOf parsed calParse fuzzyParse now with
  | Except.error e => Except.error e
  | Except.ok depdate =>
      if truthyO (retdateRawOf parsed) && depdate.isSome then
        parseDatePy (retdateRawOf parsed) (depdate.getD 0) calParse fuzzyParse
      else Except.ok none

/-- Follow-up question attached to a missing departure city. -/
def fromQuestion : String := "✈️ Where are you flying *from*?"

/-- Follow-up question attached to a missing arrival city. -/
def toQuestion : String := "🛬 Where are you flying *to*?"

/-- Follow-up question attached to a missing departure date. -/
def depQuestion : String := "📅 When do you want to *depart*?"

/-- Missing-field enumeration of the route, in the fixed order from, to,
depdate, with the paired follow-up questions. -/
def missingPairs (depfrom arrto depdate_raw : Option JVal)
    (depdate : Option Nat) : List (String × String) :=
  (if is_missing depfrom then [("from", fromQuestion)] else []) ++
  (if is_missing arrto then [("to", toQuestion)] else []) ++
  (if !truthyO depdate_raw || depdate.isNone then [("depdate", depQuestion)] else [])

/-- One directed leg of the trip, as placed in the final payload. -/
structure Segment where
  depfrom : Option JVal
  arrto : Option JVal
  depdate : Option Nat
deriving DecidableEq

/-- The final booking payload. -/
structure Payload where
  adults : Int
  children : Int
  infants : Int
  cabin : String
  stops : Bool
  airline_include : JVal
  ages : List Int
  segments : List Segment
deriving DecidableEq

/-- The route's possible JSON responses: an error with its HTTP status, the
incomplete-status response, or the complete-status response. -/
inductive Response where
  | error : Nat → String → Response
  | incomplete : String → List String → List String →
      Option JVal → Option JVal → Option JVal → Response
  | complete : Payload → Response
deriving DecidableEq

/-- Tail of the route after both dates are resolved: passenger-count and
cabin coercions (each can raise), missing-field check, and either the
incomplete response or the final payload. -/
def respond (q : String) (parsed : Jobj) (depdate retdate : Option Nat) : Response :=
  match pyInt (pgetD parsed.adults (JVal.num 1)) with
  | none => Response.error 500 "invalid literal for int()"
  | some adults =>
  match pyInt (pgetD parsed.children (JVal.num 0)) with
  | none => Response.error 500 "invalid literal for int()"
  | some children =>
  match pyInt (pgetD parsed.infants (JVal.num 0)) with
  | none => Response.error 500 "invalid literal for int()"
  | some infants =>
  match pyLower (pgetD parsed.cabin (JVal.str "economy")) with
  | none => Response.error 500 "AttributeError"
  | some cabin =>
  let airline := pgetD parsed.airline_include (JVal.str "")
  let depfrom := depfromOf q parsed
  let arrto := arrtoOf q parsed
  let mf := missingPairs depfrom arrto (depdateRawOf parsed) depdate
  if mf.isEmpty then
    Response.complete
      { adults := adults, children := children, infants := infants,
        cabin := cabin, stops := false, airline_include := airline,
        ages := [],
        segments :=
          [{ depfrom := depfrom, arrto := arrto, depdate := depdate }] ++
          (match retdate with
           | some r => [{ depfrom := arrto, arrto := depfrom, depdate := some r }]
           | none => []) }
  else
    Response.incomplete
      ("Missing fields: " ++ String.intercalate (", ") (mf.map Prod.fst))
      (mf.map Prod.fst) (mf.map Prod.snd)
      (depfromOf q parsed) (arrtoOf q parsed)
      (if truthyO (depdateRawOf parsed) then depdateRawOf parsed else none)

/-- The route body from the decoded JSON object onward: city cross-check,
date normalization (either step can raise), then `respond`. -/
def parseQueryBody (q : String) (parsed : Jobj)
    (calParse fuzzyParse : String → Nat → Option Nat) (now : Nat) : Response :=
  match depdateOf parsed calParse fuzzyParse now with
  | Except.error e => Response.error 500 e
  | Except.ok depdate =>
  match (if truthyO (retdateRawOf parsed) && depdate.isSome then
           parseDatePy (retdateRawOf parsed) (depdate.getD 0) calParse fuzzyParse
         else Except.ok none) with
  | Except.error e => Response.error 500 e
  | Except.ok retdate => respond q parsed depdate retdate

/-- The full /parse route: query check, prompt, completer call, JSON span
extraction, deserialization, then the body.  `chat` is the external
completer; `jsonLoads` models json.loads on the extracted span (`none` =
JSONDecodeError, caught by the route's try/except as a 500). -/
def parse_query (q : String) (chat : String → String)
    (jsonLoads : String → Option Jobj)
    (calParse fuzzyParse : String → Nat → Option Nat) (now : Nat) : Response :=
  if q = "" then Response.error 400 ("Missing \x27query\x27")
  else
    let content := pyStrip (chat (build_prompt q))
    match extractJson content with
    | none => Response.error 500 ("Invalid JSON in model output")
    | some span =>
        match jsonLoads span with
        | none => Response.error 500 ("JSONDecodeError")
        | some parsed => parseQueryBody q parsed calParse fuzzyParse now

/-- The decoded JSON object a given request ends up with, if any. -/
def extractedOf (q : String) (chat : String → String)
    (jsonLoads : String → Option Jobj) : Option Jobj :=
  (extractJson (pyStrip (chat (build_prompt q)))).bind jsonLoads

/-- containsSubL decides contiguous occurrence of the needle in the hay. -/
theorem containsSubL_iff (needle hay : List Char) :
    containsSubL needle hay = true ↔ ∃ l r, hay = l ++ (needle ++ r) := by
  induction hay with
  | nil =>
      simp only [containsSubL, List.isEmpty_iff]
      constructor
      · intro h
        exact ⟨[], [], by simp [h]⟩
      · rintro ⟨l, r, hlr⟩
        rcases List.append_eq_nil.mp hlr.symm with ⟨h1, h2⟩
        exact (List.append_eq_nil.mp h2).1
  | cons c t ih =>
      simp only [containsSubL, Bool.or_eq_true, ih, List.isPrefixOf_iff_prefix]
      constructor
      · rintro (⟨r, hr⟩ | ⟨l, r, hlr⟩)
        · exact ⟨[], r, by simpa using hr.symm⟩
        · exact ⟨c :: l, r, by simp [hlr]⟩
      · rintro ⟨l, r, hlr⟩
        cases l with
        | nil => exact Or.inl ⟨r, by simpa using hlr.symm⟩
        | cons a l1 =>
            simp only [List.cons_append, List.cons.injEq] at hlr
            exact Or.inr ⟨l1, r, hlr.2⟩

/-- A string containing "day after tomorrow" also contains "tomorrow". -/
theorem containsSub_dat_imp_tomorrow (hay : String)
    (h : containsSub hay ("day after tomorrow") = true) :
    containsSub hay ("tomorrow") = true := by
  unfold containsSub at h ⊢
  rcases (containsSubL_iff _ _).mp h with ⟨l, r, hlr⟩
  apply (containsSubL_iff _ _).mpr
  refine ⟨l ++ ("day after ".toList), r, ?_⟩
  have hD : ("day after tomorrow".toList) =
      ("day after ".toList) ++ ("tomorrow".toList) := by decide
  rw [hlr, hD]
  simp [List.append_assoc]

/-- C4: for every reference day R, a phrase containing "day after tomorrow"
(case-insensitively, as the code lowercases first) normalizes to R + 2 and a
phrase containing "tomorrow" on which the earlier "day after tomorrow" rule
did not fire normalizes to R + 1, regardless of the rest of the phrase and of
the general (`calParse`) and fuzzy (`fuzzyParse`) parsers. -/
theorem c4_tomorrow_rules (s : String) (R : Nat)
    (calParse fuzzyParse : String → Nat → Option Nat) :
    (containsSub (pyStrip (pyLowerStr s)) ("day after tomorrow") = true →
       parse_date_string s R calParse fuzzyParse = some (R + 2)) ∧
    (containsSub (pyStrip (pyLowerStr s)) ("tomorrow") = true →
       containsSub (pyStrip (pyLowerStr s)) ("day after tomorrow") = false →
       parse_date_string s R calParse fuzzyParse = some (R + 1)) := by
  constructor
  · intro h
    have hne : s ≠ "" := by
      intro he
      subst he
      exact absurd h (by decide)
    unfold parse_date_string
    rw [if_neg hne]
    simp [h]
  · intro h hdat
    have hne : s ≠ "" := by
      intro he
      subst he
      exact absurd h (by decide)
    unfold parse_date_string
    rw [if_neg hne]
    simp [h, hdat]

/-- C4 witness: with reference day 7 and vacuous external parsers,
"day after tomorrow" resolves to 9 and "tomorrow" to 8. -/
theorem c4_tomorrow_rules_witness :
    parse_date_string "day after tomorrow" 7 (fun _ _ => none) (fun _ _ => none) =
      some (7 + 2) ∧
    parse_date_string "tomorrow" 7 (fun _ _ => none) (fun _ _ => none) =
      some (7 + 1) :=
  ⟨(c4_tomorrow_rules "day after tomorrow" 7 (fun _ _ => none) (fun _ _ => none)).1
      (by decide),
   (c4_tomorrow_rules "tomorrow" 7 (fun _ _ => none) (fun _ _ => none)).2
      (by decide) (by decide)⟩

/-- C3 (amended): for every phrase whose lowercased, stripped text matches
the pattern "after N day(s)" (leftmost match, N the matched digit run) and
does not also contain "tomorrow" (which rules 1 and 2 intercept first), date
normalization relative to reference day R returns exactly R + N, for every
choice of the general and fuzzy parsers. -/
theorem c3_after_n_days_amended (s : String) (R N : Nat)
    (calParse fuzzyParse : String → Nat → Option Nat)
    (hmatch : afterDaysSearch (pyStrip (pyLowerStr s)).toList = some N)
    (htom : containsSub (pyStrip (pyLowerStr s)) ("tomorrow") = false) :
    parse_date_string s R calParse fuzzyParse = some (R + N) := by
  have hne : s ≠ "" := by
    intro he
    subst he
    have h0 : (pyStrip (pyLowerStr "")).toList = ([] : List Char) := by decide
    rw [h0] at hmatch
    simp [afterDaysSearch] at hmatch
  have hdat : containsSub (pyStrip (pyLowerStr s)) ("day after tomorrow") = false := by
    cases hc : containsSub (pyStrip (pyLowerStr s)) ("day after tomorrow")
    · rfl
    · have := containsSub_dat_imp_tomorrow _ hc
      rw [htom] at this
      exact absurd this (by decide)
  have hmatch2 : afterDaysSearch (pyStrip (pyLowerStr s)).data = some N := hmatch
  unfold parse_date_string
  rw [if_neg hne]
  simp [hdat, htom, hmatch2]

/-- C3 counterexample: "after 3 days tomorrow" matches the "after N day(s)"
pattern with N = 3, yet normalization relative to reference day 100 returns
101 (the "tomorrow" rule fires first), not 100 + 3. -/
theorem c3_after_n_days_cex :
    afterDaysSearch (pyStrip (pyLowerStr "after 3 days tomorrow")).toList = some 3 ∧
    parse_date_string "after 3 days tomorrow" 100
      (fun _ _ => none) (fun _ _ => none) = some 101 ∧
    parse_date_string "after 3 days tomorrow" 100
      (fun _ _ => none) (fun _ _ => none) ≠ some (100 + 3) :=
  ⟨by decide, by decide, by decide⟩

/-- C3 witness: "after 5 days" with reference day 10 resolves to 15. -/
theorem c3_after_n_days_witness :
    parse_date_string "after 5 days" 10 (fun _ _ => none) (fun _ _ => none) =
      some (10 + 5) :=
  c3_after_n_days_amended "after 5 days" 10 5 (fun _ _ => none) (fun _ _ => none)
    (by decide) (by decide)

/-- C5: whenever the departure date resolved to day d and the raw return
phrase is truthy, the return date is computed by the same parseDatePy /
parse_date_string machinery with reference day d (not now); when either the
raw phrase or the resolved departure date is lacking, no return date is
computed. -/
theorem c5_retdate_reference (parsed : Jobj)
    (calParse fuzzyParse : String → Nat → Option Nat) (now : Nat)
    (dep : Option Nat)
    (hd : depdateOf parsed calParse fuzzyParse now = Except.ok dep) :
    (∀ d, dep = some d → truthyO (retdateRawOf parsed) = true →
       retdateOf parsed calParse fuzzyParse now =
         parseDatePy (retdateRawOf parsed) d calParse fuzzyParse) ∧
    ((dep = none ∨ truthyO (retdateRawOf parsed) = false) →
       retdateOf parsed calParse fuzzyParse now = Except.ok none) := by
  constructor
  · intro d hdep htr
    subst hdep
    unfold retdateOf
    rw [hd]
    simp [htr]
  · intro hvac
    unfold retdateOf
    rw [hd]
    rcases hvac with hnone | hfalse
    · subst hnone
      simp
    · simp [hfalse]

/-- C5 witness: with departure phrase "after 100 days" (resolving to day 100
from reference 0) and return phrase "return after 3 days", the return date is
normalized with reference day 100, and indeed resolves to day 103. -/
theorem c5_retdate_reference_witness :
    retdateOf
        { depdate := some (JVal.str "after 100 days"),
          retdate := some (JVal.str "return after 3 days") }
        (fun _ _ => none) (fun _ _ => none) 0 =
      parseDatePy (some (JVal.str "return after 3 days")) 100
        (fun _ _ => none) (fun _ _ => none) ∧
    parseDatePy (some (JVal.str "return after 3 days")) 100
        (fun _ _ => none) (fun _ _ => none) = Except.ok (some 103) :=
  ⟨(c5_retdate_reference
      { depdate := some (JVal.str "after 100 days"),
        retdate := some (JVal.str "return after 3 days") }
      (fun _ _ => none) (fun _ _ => none) 0 (some 100) rfl).1
      100 rfl (by decide),
   rfl⟩

/-- C6: is_missing is true on Python None, and on a scalar value exactly when
its str() form, stripped then lowercased, is one of the five sentinels: the
empty string, "none", "not provided", "departure city (not provided)",
"arrival city (not provided)"; it is false on every other value. -/
theorem c6_is_missing_spec :
    is_missing none = true ∧
    ∀ v : JVal, is_missing (some v) = true ↔
      (pyLowerStr (pyStrip (pyStr v)) = "" ∨
       pyLowerStr (pyStrip (pyStr v)) = "none" ∨
       pyLowerStr (pyStrip (pyStr v)) = "not provided" ∨
       pyLowerStr (pyStrip (pyStr v)) = "departure city (not provided)" ∨
       pyLowerStr (pyStrip (pyStr v)) = "arrival city (not provided)") := by
  constructor
  · rfl
  · intro v
    simp [is_missing, missingSentinels, List.contains_iff_exists_mem_beq]

/-- C9: on a phrase where every normalization rule fails — no "tomorrow" /
"day after tomorrow" occurrence, no "after N day(s)" match, the general
parser reports no parse, and the fuzzy parser raises (returns none) — the
date normalizer returns an absent result rather than an error, and in the
pipeline this unresolved departure date is absorbed into the
missing-fields/incomplete path (given the later coercions succeed), never
surfaced as an error response. -/
theorem c9_unresolved_absorbed (s : String)
    (calParse fuzzyParse : String → Nat → Option Nat)
    (htom : containsSub (pyStrip (pyLowerStr s)) ("tomorrow") = false)
    (haft : afterDaysSearch (pyStrip (pyLowerStr s)).toList = none) :
    (∀ R, calParse s R = none → fuzzyParse s R = none →
       parse_date_string s R calParse fuzzyParse = none ∧
       parseDatePy (some (JVal.str s)) R calParse fuzzyParse = Except.ok none) ∧
    (∀ q parsed now a c i cb,
       depdateRawOf parsed = some (JVal.str s) →
       calParse s now = none → fuzzyParse s now = none →
       pyInt (pgetD parsed.adults (JVal.num 1)) = some a →
       pyInt (pgetD parsed.children (JVal.num 0)) = some c →
       pyInt (pgetD parsed.infants (JVal.num 0)) = some i →
       pyLower (pgetD parsed.cabin (JVal.str "economy")) = some cb →
       ∃ msg names qs pf pt pd,
         parseQueryBody q parsed calParse fuzzyParse now =
           Response.incomplete msg names qs pf pt pd ∧
         "depdate" ∈ names) := by
  have hdat : containsSub (pyStrip (pyLowerStr s)) ("day after tomorrow") = false := by
    cases hc : containsSub (pyStrip (pyLowerStr s)) ("day after tomorrow")
    · rfl
    · have := containsSub_dat_imp_tomorrow _ hc
      rw [htom] at this
      exact absurd this (by decide)
  have haft2 : afterDaysSearch (pyStrip (pyLowerStr s)).data = none := haft
  have hpds : ∀ R, calParse s R = none → fuzzyParse s R = none →
      parse_date_string s R calParse fuzzyParse = none := by
    intro R hcal hfuz
    by_cases hne : s = ""
    · subst hne
      unfold parse_date_string
      simp
    · unfold parse_date_string
      rw [if_neg hne]
      simp [hdat, htom, haft2, hcal, hfuz]
  constructor
  · intro R hcal hfuz
    refine ⟨hpds R hcal hfuz, ?_⟩
    simp [parseDatePy, hpds R hcal hfuz]
  · intro q parsed now a c i cb hraw hcal hfuz ha hc hi hcb
    have hdd : depdateOf parsed calParse fuzzyParse now = Except.ok none := by
      unfold depdateOf
      rw [hraw]
      by_cases hne : s = ""
      · subst hne
        simp [truthyO, truthy]
      · have : truthyO (some (JVal.str s)) = true := by
          simp [truthyO, truthy, hne]
        rw [if_pos this]
        simp [parseDatePy, hpds now hcal hfuz]
    unfold parseQueryBody
    rw [hdd]
    simp only [Option.isSome_none, Bool.and_false, if_false]
    unfold respond
    rw [ha, hc, hi, hcb]
    have hmf : (missingPairs (depfromOf q parsed) (arrtoOf q parsed)
        (depdateRawOf parsed) none).isEmpty = false := by
      unfold missingPairs
      simp
    rw [hraw] at hmf ⊢
    simp only [hmf, if_false]
    refine ⟨_, _, _, _, _, _, rfl, ?_⟩
    unfold missingPairs
    simp

/-- C9 witness: "xyzzy gibberish" fails every rule (with both external
parsers failing), the normalizer yields an absent result rather than an
error, and the pipeline answers with the incomplete response listing
"depdate". -/
theorem c9_unresolved_absorbed_witness :
    (parse_date_string "xyzzy gibberish" 5 (fun _ _ => none) (fun _ _ => none) =
        none ∧
     parseDatePy (some (JVal.str "xyzzy gibberish")) 5
        (fun _ _ => none) (fun _ _ => none) = Except.ok none) ∧
    (∃ msg names qs pf pt pd,
       parseQueryBody "w" ({ depdate := some (JVal.str "xyzzy gibberish") } : Jobj)
           (fun _ _ => none) (fun _ _ => none) 5 =
         Response.incomplete msg names qs pf pt pd ∧
       "depdate" ∈ names) :=
  ⟨(c9_unresolved_absorbed "xyzzy gibberish" (fun _ _ => none) (fun _ _ => none)
      (by decide) (by decide)).1 5 rfl rfl,
   (c9_unresolved_absorbed "xyzzy gibberish" (fun _ _ => none) (fun _ _ => none)
      (by decide) (by decide)).2 "w"
      ({ depdate := some (JVal.str "xyzzy gibberish") } : Jobj) 5 1 0 0 "economy"
      rfl rfl rfl rfl rfl rfl rfl⟩

/-- C7 counterexample: with model output assigning the number 0 to "from"
and a query not containing "from", the extracted value is NOT forced to
missing: 0 is Python-falsy, so the cross-check leaves it in place, and
is_missing(0) is false, so the field counts as provided. -/
theorem c7_cross_check_cex :
    containsSub (pyLowerStr "x to y") ("from") = false ∧
    depfromOf "x to y" ({ jfrom := some (JVal.num 0) } : Jobj) =
      some (JVal.num 0) ∧
    is_missing (depfromOf "x to y" ({ jfrom := some (JVal.num 0) } : Jobj)) =
      false :=
  ⟨by decide, by decide, by decide⟩

/-- C7 (amended): when the lowercased query lacks the substring "from", a
truthy extracted departure value is forced to None; a falsy value is left
unchanged (so a falsy non-sentinel value such as the number 0 still counts
as provided).  In particular for every string-valued, null, or absent model
output the post-cross-check value is missing.  Symmetric for "to". -/
theorem c7_cross_check_amended (q : String) (parsed : Jobj) :
    (containsSub (pyLowerStr q) ("from") = false →
       (truthyO (pget parsed.jfrom) = true → depfromOf q parsed = none) ∧
       (truthyO (pget parsed.jfrom) = false →
          depfromOf q parsed = pget parsed.jfrom) ∧
       (∀ s, pget parsed.jfrom = some (JVal.str s) →
          is_missing (depfromOf q parsed) = true) ∧
       (pget parsed.jfrom = none → is_missing (depfromOf q parsed) = true)) ∧
    (containsSub (pyLowerStr q) ("to") = false →
       (truthyO (pget parsed.jto) = true → arrtoOf q parsed = none) ∧
       (truthyO (pget parsed.jto) = false →
          arrtoOf q parsed = pget parsed.jto) ∧
       (∀ s, pget parsed.jto = some (JVal.str s) →
          is_missing (arrtoOf q parsed) = true) ∧
       (pget parsed.jto = none → is_missing (arrtoOf q parsed) = true)) := by
  constructor
  · intro hq
    refine ⟨?_, ?_, ?_, ?_⟩
    · intro ht
      unfold depfromOf
      simp [ht, hq]
    · intro ht
      unfold depfromOf
      simp [ht]
    · intro s hs
      by_cases hse : s = ""
      · subst hse
        unfold depfromOf
        rw [hs]
        simp [truthyO, truthy]
        decide
      · have ht : truthyO (pget parsed.jfrom) = true := by
          rw [hs]
          simp [truthyO, truthy, hse]
        unfold depfromOf
        simp [ht, hq, is_missing]
    · intro hs
      unfold depfromOf
      rw [hs]
      simp [truthyO, is_missing]
  · intro hq
    refine ⟨?_, ?_, ?_, ?_⟩
    · intro ht
      unfold arrtoOf
      simp [ht, hq]
    · intro ht
      unfold arrtoOf
      simp [ht]
    · intro s hs
      by_cases hse : s = ""
      · subst hse
        unfold arrtoOf
        rw [hs]
        simp [truthyO, truthy]
        decide
      · have ht : truthyO (pget parsed.jto) = true := by
          rw [hs]
          simp [truthyO, truthy, hse]
        unfold arrtoOf
        simp [ht, hq, is_missing]
    · intro hs
      unfold arrtoOf
      rw [hs]
      simp [truthyO, is_missing]

/-- C7 witness: the amended forcing applied to string city values with a
query containing neither "from" nor "to". -/
theorem c7_cross_check_amended_witness :
    is_missing
        (depfromOf "x" ({ jfrom := some (JVal.str "Delhi") } : Jobj)) = true ∧
    is_missing
        (arrtoOf "x" ({ jto := some (JVal.str "Goa") } : Jobj)) = true :=
  ⟨((c7_cross_check_amended "x"
        ({ jfrom := some (JVal.str "Delhi") } : Jobj)).1 (by decide)).2.2.1
      "Delhi" rfl,
   ((c7_cross_check_amended "x"
        ({ jto := some (JVal.str "Goa") } : Jobj)).2 (by decide)).2.2.1
      "Goa" rfl⟩

/-- C8: the response extractor takes the first-opening-brace to
last-closing-brace span of the (stripped) completer output (extractJson);
whenever no such span exists the route answers with the fixed 500 error
"Invalid JSON in model output", and whenever the span exists but fails to
deserialize the route answers with the generic 500 error; the completer is
invoked exactly once (structurally: `chat` is applied once in parse_query),
with no retry. -/
theorem c8_extractor_failure (q : String) (chat : String → String)
    (jsonLoads : String → Option Jobj)
    (calParse fuzzyParse : String → Nat → Option Nat) (now : Nat)
    (hq : q ≠ "") :
    (extractJson (pyStrip (chat (build_prompt q))) = none →
       parse_query q chat jsonLoads calParse fuzzyParse now =
         Response.error 500 ("Invalid JSON in model output")) ∧
    (∀ span, extractJson (pyStrip (chat (build_prompt q))) = some span →
       jsonLoads span = none →
       parse_query q chat jsonLoads calParse fuzzyParse now =
         Response.error 500 ("JSONDecodeError")) := by
  constructor
  · intro hnone
    unfold parse_query
    rw [if_neg hq]
    simp [hnone]
  · intro span hspan hload
    unfold parse_query
    rw [if_neg hq]
    simp [hspan, hload]

/-- C8 witness: a reply with no brace-delimited span gives the fixed 500,
and a reply whose span fails to deserialize gives the generic 500. -/
theorem c8_extractor_failure_witness :
    parse_query "hi" (fun _ => "no braces at all") (fun _ => none)
        (fun _ _ => none) (fun _ _ => none) 0 =
      Response.error 500 ("Invalid JSON in model output") ∧
    parse_query "hi" (fun _ => "x \x7b bad \x7d y") (fun _ => none)
        (fun _ _ => none) (fun _ _ => none) 0 =
      Response.error 500 ("JSONDecodeError") :=
  ⟨(c8_extractor_failure "hi" (fun _ => "no braces at all") (fun _ => none)
      (fun _ _ => none) (fun _ _ => none) 0 (by decide)).1 (by decide),
   (c8_extractor_failure "hi" (fun _ => "x \x7b bad \x7d y") (fun _ => none)
      (fun _ _ => none) (fun _ _ => none) 0 (by decide)).2
      "\x7b bad \x7d" (by decide) rfl⟩

/-- C10: a present "adults"/"children"/"infants" key whose value int() cannot
coerce (JSON null in particular) makes the whole request fail with the
generic 500 error — the documented defaults are not applied; the defaults
adults=1, children=0, infants=0 apply exactly when the key is absent from
the decoded mapping; and int() of null indeed fails. -/
theorem c10_count_coercion (q : String) (parsed : Jobj)
    (calParse fuzzyParse : String → Nat → Option Nat) (now : Nat) :
    ((pyInt (pgetD parsed.adults (JVal.num 1)) = none ∨
      pyInt (pgetD parsed.children (JVal.num 0)) = none ∨
      pyInt (pgetD parsed.infants (JVal.num 0)) = none) →
     ∃ msg, parseQueryBody q parsed calParse fuzzyParse now =
       Response.error 500 msg) ∧
    (parsed.adults = none → pyInt (pgetD parsed.adults (JVal.num 1)) = some 1) ∧
    (parsed.children = none →
       pyInt (pgetD parsed.children (JVal.num 0)) = some 0) ∧
    (parsed.infants = none →
       pyInt (pgetD parsed.infants (JVal.num 0)) = some 0) ∧
    pyInt JVal.null = none := by
  refine ⟨?_, ?_, ?_, ?_, rfl⟩
  · intro hbad
    unfold parseQueryBody
    cases hd : depdateOf parsed calParse fuzzyParse now with
    | error e => exact ⟨e, rfl⟩
    | ok depdate =>
        dsimp only
        cases hr : (if truthyO (retdateRawOf parsed) && depdate.isSome then
            parseDatePy (retdateRawOf parsed) (depdate.getD 0) calParse fuzzyParse
          else Except.ok none) with
        | error e => exact ⟨e, rfl⟩
        | ok retdate =>
            dsimp only
            unfold respond
            rcases hbad with h | h | h
            · rw [h]
              exact ⟨_, rfl⟩
            · cases ha : pyInt (pgetD parsed.adults (JVal.num 1)) with
              | none => exact ⟨_, rfl⟩
              | some a =>
                  dsimp only
                  rw [h]
                  exact ⟨_, rfl⟩
            · cases ha : pyInt (pgetD parsed.adults (JVal.num 1)) with
              | none => exact ⟨_, rfl⟩
              | some a =>
                  dsimp only
                  cases hch : pyInt (pgetD parsed.children (JVal.num 0)) with
                  | none => exact ⟨_, rfl⟩
                  | some c =>
                      dsimp only
                      rw [h]
                      exact ⟨_, rfl⟩
  · intro h
    rw [h]
    rfl
  · intro h
    rw [h]
    rfl
  · intro h
    rw [h]
    rfl

/-- C10 witness: a null "adults" value aborts the request with a 500 even
though the query is otherwise processable, and the defaults apply on a
mapping with all keys absent. -/
theorem c10_count_coercion_witness :
    (∃ msg, parseQueryBody "x" ({ adults := some JVal.null } : Jobj)
        (fun _ _ => none) (fun _ _ => none) 0 = Response.error 500 msg) ∧
    pyInt (pgetD (({} : Jobj)).adults (JVal.num 1)) = some 1 ∧
    pyInt (pgetD (({} : Jobj)).children (JVal.num 0)) = some 0 ∧
    pyInt (pgetD (({} : Jobj)).infants (JVal.num 0)) = some 0 :=
  ⟨(c10_count_coercion "x" ({ adults := some JVal.null } : Jobj)
      (fun _ _ => none) (fun _ _ => none) 0).1 (Or.inl rfl),
   (c10_count_coercion "x" ({} : Jobj)
      (fun _ _ => none) (fun _ _ => none) 0).2.1 rfl,
   (c10_count_coercion "x" ({} : Jobj)
      (fun _ _ => none) (fun _ _ => none) 0).2.2.1 rfl,
   (c10_count_coercion "x" ({} : Jobj)
      (fun _ _ => none) (fun _ _ => none) 0).2.2.2.1 rfl⟩

/-- C2 counterexample: an extraction with no resolvable "from" (missing-field
set non-empty) but a null "adults" value makes the pipeline answer with the
generic 500 error, not with the incomplete status the claim promises whenever
the set is non-empty. -/
theorem c2_missing_enumeration_cex :
    is_missing (depfromOf "x" ({ adults := some JVal.null } : Jobj)) = true ∧
    parse_query "x" (fun _ => "ok \x7b json \x7d done")
        (fun _ => some ({ adults := some JVal.null } : Jobj))
        (fun _ _ => none) (fun _ _ => none) 0 =
      Response.error 500 ("invalid literal for int()") :=
  ⟨by decide, by decide⟩

/-- C2 (amended): missing-field enumeration evaluates from, to, depdate in
that fixed order, a city being missing exactly when is_missing holds of its
post-cross-check value and depdate exactly when the raw phrase is falsy or
normalization returned absent; provided the date-normalization steps and the
passenger-count/cabin coercions succeed, a non-empty set makes the pipeline
answer with status incomplete listing those names and their follow-up
questions in that order, and when none of the three resolved the enumeration
is exactly from, to, depdate. -/
theorem c2_missing_enumeration_amended
    (q : String) (chat : String → String) (jsonLoads : String → Option Jobj)
    (calParse fuzzyParse : String → Nat → Option Nat) (now : Nat)
    (parsed : Jobj) (dep ret : Option Nat) (a c i : Int) (cb : String)
    (hq : q ≠ "")
    (hx : extractedOf q chat jsonLoads = some parsed)
    (hd : depdateOf parsed calParse fuzzyParse now = Except.ok dep)
    (hr : retdateOf parsed calParse fuzzyParse now = Except.ok ret)
    (ha : pyInt (pgetD parsed.adults (JVal.num 1)) = some a)
    (hc : pyInt (pgetD parsed.children (JVal.num 0)) = some c)
    (hi : pyInt (pgetD parsed.infants (JVal.num 0)) = some i)
    (hcb : pyLower (pgetD parsed.cabin (JVal.str "economy")) = some cb) :
    (missingPairs (depfromOf q parsed) (arrtoOf q parsed)
        (depdateRawOf parsed) dep).map Prod.fst =
      (if is_missing (depfromOf q parsed) then ["from"] else []) ++
      (if is_missing (arrtoOf q parsed) then ["to"] else []) ++
      (if !truthyO (depdateRawOf parsed) || dep.isNone then ["depdate"] else []) ∧
    (missingPairs (depfromOf q parsed) (arrtoOf q parsed)
        (depdateRawOf parsed) dep).map Prod.snd =
      (if is_missing (depfromOf q parsed) then [fromQuestion] else []) ++
      (if is_missing (arrtoOf q parsed) then [toQuestion] else []) ++
      (if !truthyO (depdateRawOf parsed) || dep.isNone then [depQuestion] else []) ∧
    (missingPairs (depfromOf q parsed) (arrtoOf q parsed)
        (depdateRawOf parsed) dep ≠ [] →
       parse_query q chat jsonLoads calParse fuzzyParse now =
         Response.incomplete
           ("Missing fields: " ++ String.intercalate (", ")
             ((missingPairs (depfromOf q parsed) (arrtoOf q parsed)
                 (depdateRawOf parsed) dep).map Prod.fst))
           ((missingPairs (depfromOf q parsed) (arrtoOf q parsed)
               (depdateRawOf parsed) dep).map Prod.fst)
           ((missingPairs (depfromOf q parsed) (arrtoOf q parsed)
               (depdateRawOf parsed) dep).map Prod.snd)
           (depfromOf q parsed) (arrtoOf q parsed)
           (if truthyO (depdateRawOf parsed) then depdateRawOf parsed else none)) ∧
    (is_missing (depfromOf q parsed) = true →
       is_missing (arrtoOf q parsed) = true →
       (!truthyO (depdateRawOf parsed) || dep.isNone) = true →
       (missingPairs (depfromOf q parsed) (arrtoOf q parsed)
           (depdateRawOf parsed) dep).map Prod.fst = ["from", "to", "depdate"]) := by
  refine ⟨?_, ?_, ?_, ?_⟩
  · unfold missingPairs
    simp only [List.map_append, apply_ite (List.map Prod.fst)]
    simp
  · unfold missingPairs
    simp only [List.map_append, apply_ite (List.map Prod.snd)]
    simp
  · intro hne
    obtain ⟨span, hspan, hload⟩ := Option.bind_eq_some.mp hx
    unfold parse_query
    rw [if_neg hq]
    dsimp only
    rw [show extractJson (pyStrip (chat (build_prompt q))) = some span from hspan]
    dsimp only
    rw [hload]
    dsimp only
    unfold parseQueryBody
    rw [hd]
    dsimp only
    have hr2 : (if truthyO (retdateRawOf parsed) && dep.isSome then
        parseDatePy (retdateRawOf parsed) (dep.getD 0) calParse fuzzyParse
      else Except.ok none) = Except.ok ret := by
      have h0 := hr
      unfold retdateOf at h0
      rw [hd] at h0
      exact h0
    rw [hr2]
    dsimp only
    unfold respond
    rw [ha]
    dsimp only
    rw [hc]
    dsimp only
    rw [hi]
    dsimp only
    rw [hcb]
    dsimp only
    have hne2 : (missingPairs (depfromOf q parsed) (arrtoOf q parsed)
        (depdateRawOf parsed) dep).isEmpty = false := by
      cases hmf : missingPairs (depfromOf q parsed) (arrtoOf q parsed)
          (depdateRawOf parsed) dep with
      | nil => exact absurd hmf hne
      | cons x xs => rfl
    rw [hne2]
    rfl
  · intro h1 h2 h3
    unfold missingPairs
    rw [h1, h2, h3]
    rfl

/-- C2 witness: a query resolving none of the three fields yields the
incomplete status with exactly from, to, depdate in that order and their
three follow-up questions. -/
theorem c2_missing_enumeration_amended_witness :
    parse_query "hello there" (fun _ => "ok \x7b json \x7d done")
        (fun _ => some ({} : Jobj)) (fun _ _ => none) (fun _ _ => none) 0 =
      Response.incomplete ("Missing fields: from, to, depdate")
        ["from", "to", "depdate"]
        [fromQuestion, toQuestion, depQuestion] none none none :=
  (c2_missing_enumeration_amended "hello there"
      (fun _ => "ok \x7b json \x7d done") (fun _ => some ({} : Jobj))
      (fun _ _ => none) (fun _ _ => none) 0 ({} : Jobj) none none 1 0 0
      "economy" (by decide) rfl rfl rfl rfl rfl rfl rfl).2.2.1 (by decide)

/-- C1: whenever the pipeline answers with status complete, the decoded
mapping exists, the departure date resolved, the missing-field set computed
from the post-cross-check cities and the resolved date is empty, and the
payload carries exactly one outbound segment (the resolved cities and date),
plus an inbound segment if and only if a return date resolved, in which case
the inbound cities are the outbound ones swapped. -/
theorem c1_complete_payload (q : String) (chat : String → String)
    (jsonLoads : String → Option Jobj)
    (calParse fuzzyParse : String → Nat → Option Nat) (now : Nat) (p : Payload)
    (h : parse_query q chat jsonLoads calParse fuzzyParse now =
      Response.complete p) :
    ∃ parsed dd,
      extractedOf q chat jsonLoads = some parsed ∧
      depdateOf parsed calParse fuzzyParse now = Except.ok (some dd) ∧
      missingPairs (depfromOf q parsed) (arrtoOf q parsed)
        (depdateRawOf parsed) (some dd) = [] ∧
      ((retdateOf parsed calParse fuzzyParse now = Except.ok none ∧
         p.segments = [{ depfrom := depfromOf q parsed,
                         arrto := arrtoOf q parsed, depdate := some dd }]) ∨
       (∃ rd, retdateOf parsed calParse fuzzyParse now = Except.ok (some rd) ∧
         p.segments = [{ depfrom := depfromOf q parsed,
                         arrto := arrtoOf q parsed, depdate := some dd },
                       { depfrom := arrtoOf q parsed,
                         arrto := depfromOf q parsed, depdate := some rd }])) := by
  by_cases hq : q = ""
  · rw [hq] at h
    exact absurd h (by simp [parse_query])
  unfold parse_query at h
  rw [if_neg hq] at h
  dsimp only at h
  cases he : extractJson (pyStrip (chat (build_prompt q))) with
  | none =>
      rw [he] at h
      exact absurd h (by simp)
  | some span =>
  rw [he] at h
  dsimp only at h
  cases hj : jsonLoads span with
  | none =>
      rw [hj] at h
      exact absurd h (by simp)
  | some parsed =>
  rw [hj] at h
  dsimp only at h
  have hext : extractedOf q chat jsonLoads = some parsed := by
    unfold extractedOf
    rw [he]
    simpa using hj
  unfold parseQueryBody at h
  cases hd : depdateOf parsed calParse fuzzyParse now with
  | error e =>
      rw [hd] at h
      exact absurd h (by simp)
  | ok dep =>
  rw [hd] at h
  dsimp only at h
  cases hr : (if truthyO (retdateRawOf parsed) && dep.isSome then
      parseDatePy (retdateRawOf parsed) (dep.getD 0) calParse fuzzyParse
    else Except.ok none) with
  | error e =>
      rw [hr] at h
      exact absurd h (by simp)
  | ok ret =>
  rw [hr] at h
  dsimp only at h
  have hret : retdateOf parsed calParse fuzzyParse now = Except.ok ret := by
    unfold retdateOf
    rw [hd]
    exact hr
  unfold respond at h
  cases ha : pyInt (pgetD parsed.adults (JVal.num 1)) with
  | none =>
      rw [ha] at h
      exact absurd h (by simp)
  | some a =>
  rw [ha] at h
  dsimp only at h
  cases hc : pyInt (pgetD parsed.children (JVal.num 0)) with
  | none =>
      rw [hc] at h
      exact absurd h (by simp)
  | some c =>
  rw [hc] at h
  dsimp only at h
  cases hi : pyInt (pgetD parsed.infants (JVal.num 0)) with
  | none =>
      rw [hi] at h
      exact absurd h (by simp)
  | some i =>
  rw [hi] at h
  dsimp only at h
  cases hcb : pyLower (pgetD parsed.cabin (JVal.str "economy")) with
  | none =>
      rw [hcb] at h
      exact absurd h (by simp)
  | some cb =>
  rw [hcb] at h
  dsimp only at h
  cases hmf : (missingPairs (depfromOf q parsed) (arrtoOf q parsed)
      (depdateRawOf parsed) dep).isEmpty with
  | false =>
      rw [hmf] at h
      exact absurd h (by simp)
  | true =>
  rw [hmf] at h
  rw [if_pos rfl] at h
  have hmfnil : missingPairs (depfromOf q parsed) (arrtoOf q parsed)
      (depdateRawOf parsed) dep = [] := by
    cases hl : missingPairs (depfromOf q parsed) (arrtoOf q parsed)
        (depdateRawOf parsed) dep with
    | nil => rfl
    | cons x xs =>
        rw [hl] at hmf
        exact absurd hmf (by simp)
  have hmf3 : (if !truthyO (depdateRawOf parsed) || dep.isNone then
      [("depdate", depQuestion)] else []) = ([] : List (String × String)) := by
    have h0 := hmfnil
    unfold missingPairs at h0
    simp only [List.append_eq_nil] at h0
    exact h0.2
  have hdep : dep.isNone = false := by
    by_cases hb : (!truthyO (depdateRawOf parsed) || dep.isNone) = true
    · rw [if_pos hb] at hmf3
      exact absurd hmf3 (by simp)
    · have hb2 := Bool.eq_false_iff.mpr hb
      exact (Bool.or_eq_false_iff.mp hb2).2
  cases dep with
  | none => exact absurd hdep (by simp)
  | some dd =>
  refine ⟨parsed, dd, hext, hd, hmfnil, ?_⟩
  cases ret with
  | none =>
      left
      refine ⟨hret, ?_⟩
      injection h with hseg
      subst hseg
      rfl
  | some rd =>
      right
      refine ⟨rd, hret, ?_⟩
      injection h with hseg
      subst hseg
      rfl

/-- C1 witness: a fully resolvable query ("tomorrow" outbound, "after 3
days" return) produces a complete response whose payload satisfies the
invariant, with the inbound segment's cities swapped. -/
theorem c1_complete_payload_witness :
    ∃ parsed dd,
      extractedOf "fly from delhi to mumbai" (fun _ => "ok \x7b json \x7d done")
          (fun _ => some ({ jfrom := some (JVal.str "Delhi"),
                            jto := some (JVal.str "Mumbai"),
                            depdate := some (JVal.str "tomorrow"),
                            retdate := some (JVal.str "after 3 days") } : Jobj)) =
        some parsed ∧
      depdateOf parsed (fun _ _ => none) (fun _ _ => none) 100 =
        Except.ok (some dd) ∧
      missingPairs (depfromOf "fly from delhi to mumbai" parsed)
        (arrtoOf "fly from delhi to mumbai" parsed)
        (depdateRawOf parsed) (some dd) = [] ∧
      ((retdateOf parsed (fun _ _ => none) (fun _ _ => none) 100 =
          Except.ok none ∧
         ({ adults := 1, children := 0, infants := 0, cabin := "economy",
            stops := false, airline_include := JVal.str "", ages := [],
            segments :=
              [{ depfrom := some (JVal.str "Delhi"),
                 arrto := some (JVal.str "Mumbai"), depdate := some 101 },
               { depfrom := some (JVal.str "Mumbai"),
                 arrto := some (JVal.str "Delhi"),
                 depdate := some 104 }] } : Payload).segments =
           [{ depfrom := depfromOf "fly from delhi to mumbai" parsed,
              arrto := arrtoOf "fly from delhi to mumbai" parsed,
              depdate := some dd }]) ∨
       (∃ rd, retdateOf parsed (fun _ _ => none) (fun _ _ => none) 100 =
           Except.ok (some rd) ∧
         ({ adults := 1, children := 0, infants := 0, cabin := "economy",
            stops := false, airline_include := JVal.str "", ages := [],
            segments :=
              [{ depfrom := some (JVal.str "Delhi"),
                 arrto := some (JVal.str "Mumbai"), depdate := some 101 },
               { depfrom := some (JVal.str "Mumbai"),
                 arrto := some (JVal.str "Delhi"),
                 depdate := some 104 }] } : Payload).segments =
           [{ depfrom := depfromOf "fly from delhi to mumbai" parsed,
              arrto := arrtoOf "fly from delhi to mumbai" parsed,
              depdate := some dd },
            { depfrom := arrtoOf "fly from delhi to mumbai" parsed,
              arrto := depfromOf "fly from delhi to mumbai" parsed,
              depdate := some rd }])) :=
  c1_complete_payload "fly from delhi to mumbai"
    (fun _ => "ok \x7b json \x7d done")
    (fun _ => some ({ jfrom := some (JVal.str "Delhi"),
                      jto := some (JVal.str "Mumbai"),
                      depdate := some (JVal.str "tomorrow"),
                      retdate := some (JVal.str "after 3 days") } : Jobj))
    (fun _ _ => none) (fun _ _ => none) 100
    ({ adults := 1, children := 0, infants := 0, cabin := "economy",
       stops := false, airline_include := JVal.str "", ages := [],
       segments :=
         [{ depfrom := some (JVal.str "Delhi"),
            arrto := some (JVal.str "Mumbai"), depdate := some 101 },
          { depfrom := some (JVal.str "Mumbai"),
            arrto := some (JVal.str "Delhi"), depdate := some 104 }] } : Payload)
    (by decide)
